import Mathlib

/-!
Verification of the client-side conversion-tracking library of the
trapezlemezes repository against its natural-language specification.

The TypeScript modules are shallowly embedded as pure Lean functions:
browser storage becomes explicit state records passed in and out,
`Date.now()` becomes an explicit `now : Int` argument (milliseconds),
random id generators become explicit `fresh : String` arguments supplied
by the environment, and fire-and-forget side effects (dataLayer pushes,
Zaraz calls) become lists of emitted calls returned by the function.
JavaScript numbers are modelled as exact rationals where division occurs
and as integers elsewhere; JavaScript falsiness of a string is the empty
string and of a number is zero.
-/

namespace Tracking

/-! ## Consent gate (client/consent.ts) -/

/-- Consent categories as returned by the CookieYes banner API
`window.getCkyConsent().categories`; each field may be absent (`none`),
matching the `?? false` / `?? true` defaults applied in `getConsentState`. -/
structure CkyCategories where
  analytics : Option Bool
  advertisement : Option Bool
  functional : Option Bool
  necessary : Option Bool
deriving Repr, DecidableEq

/-- The `ConsentState` record of types.ts. -/
structure ConsentState where
  analytics : Bool
  marketing : Bool
  functional : Bool
  necessary : Bool
deriving Repr, DecidableEq

/-- Browser-environment inputs read by `getConsentState`:
`windowPresent` models `typeof window !== 'undefined'`, `devMode` models
`import.meta.env?.DEV`, and `cky` models `window.getCkyConsent`:
`none` when the function is absent, `some none` when calling it throws,
`some (some c)` when it returns categories `c`. -/
structure ConsentEnv where
  windowPresent : Bool
  devMode : Bool
  cky : Option (Option CkyCategories)
deriving Repr, DecidableEq

/-- Embedding of `getConsentState` (consent.ts lines 11-36). -/
def getConsentState (env : ConsentEnv) : ConsentState :=
  if !env.windowPresent then
    { analytics := false, marketing := false, functional := false, necessary := true }
  else if env.devMode && env.cky.isNone then
    { analytics := true, marketing := true, functional := true, necessary := true }
  else
    match env.cky with
    | none =>
      { analytics := false, marketing := false, functional := false, necessary := true }
    | some none =>
      { analytics := false, marketing := false, functional := false, necessary := true }
    | some (some c) =>
      { analytics := c.analytics.getD false
        marketing := c.advertisement.getD false
        functional := c.functional.getD false
        necessary := c.necessary.getD true }

/-- Embedding of `hasMarketingConsent` (consent.ts lines 38-40). -/
def hasMarketingConsent (env : ConsentEnv) : Bool :=
  (getConsentState env).marketing

/-! ## Session manager (client/session.ts) -/

/-- The persisted `SessionData` record: session id plus last-activity
timestamp in milliseconds. -/
structure SessionData where
  id : String
  lastActivity : Int
deriving Repr, DecidableEq

/-- Embedding of `getOrCreateSessionId` (session.ts lines 19-35).
`stored` is the persisted session (or `none`), `now` is `Date.now()`,
`timeoutMs` is `getSessionTimeoutMs()`, and `freshId` is the value the
random generator `generateSessionId()` would produce on this call.
Returns the id handed back to the caller together with the session
record written back to storage. -/
def getOrCreateSessionId (stored : Option SessionData) (now : Int) (timeoutMs : Int)
    (freshId : String) : String × SessionData :=
  match stored with
  | some s =>
    if now - s.lastActivity < timeoutMs then
      (s.id, { id := s.id, lastActivity := now })
    else
      (freshId, { id := freshId, lastActivity := now })
  | none => (freshId, { id := freshId, lastActivity := now })

/-- Embedding of the non-mutating `getCurrentSessionId` (session.ts
lines 37-45). -/
def getCurrentSessionId (stored : Option SessionData) (now : Int) (timeoutMs : Int) :
    Option String :=
  match stored with
  | none => none
  | some s => if now - s.lastActivity ≥ timeoutMs then none else some s.id

/-! ## Attribution tracker (client/params.ts) -/

/-- The `TRACKING_PARAMS` list of constants.ts. -/
def TRACKING_PARAMS : List String :=
  ["gclid", "gbraid", "wbraid", "fbclid",
   "utm_source", "utm_medium", "utm_campaign", "utm_content", "utm_term"]

/-- URLSearchParams.get: the first value bound to `key`, `none` if absent. -/
def searchParamsGet (query : List (String × String)) (key : String) : Option String :=
  (query.find? fun kv => kv.1 = key).map fun kv => kv.2

/-- JavaScript-truthy lookup: absent and empty-string values both count as
missing, matching `if (value)` guards in the source. -/
def truthyGet (query : List (String × String)) (key : String) : Option String :=
  match searchParamsGet query key with
  | some v => if v = "" then none else some v
  | none => none

/-- Embedding of `getParamsFromUrl` (params.ts lines 9-23): the tracked
parameters present (with truthy values) in the page query, in
`TRACKING_PARAMS` order, as an association list. -/
def getParamsFromUrl (query : List (String × String)) : List (String × String) :=
  TRACKING_PARAMS.filterMap fun p => (truthyGet query p).map fun v => (p, v)

/-- The page environment read by attribution capture: the parsed
`window.location.search` entries, the hostname of `document.referrer`
(`none` when the referrer is empty or unparsable), the page hostname,
`pathname + search`, and `Date.now()`. -/
structure PageEnv where
  query : List (String × String)
  referrerHost : Option String
  ownHost : String
  pathAndSearch : String
  now : Int
deriving Repr, DecidableEq

/-- Embedding of `getExternalReferrer` (params.ts lines 25-39): the
referrer hostname when it differs from the page hostname. -/
def getExternalReferrer (env : PageEnv) : Option String :=
  match env.referrerHost with
  | none => none
  | some h => if h ≠ env.ownHost then some h else none

/-- The `AttributionParams` snapshot built by `captureAttributionParams`:
the tracked URL parameters observed (as produced by `getParamsFromUrl`),
the external referrer, the capture timestamp and the landing page. -/
structure AttributionParams where
  urlParams : List (String × String)
  referrer : Option String
  timestamp : Int
  landingPage : String
deriving Repr, DecidableEq

/-- The two persisted attribution slots (`lg_first_touch`,
`lg_last_touch`). -/
structure AttrState where
  firstTouch : Option AttributionParams
  lastTouch : Option AttributionParams
deriving Repr, DecidableEq

/-- The snapshot `captureAttributionParams` builds from a page
environment (params.ts lines 53-58). -/
def snapshotOf (env : PageEnv) : AttributionParams :=
  { urlParams := getParamsFromUrl env.query
    referrer := getExternalReferrer env
    timestamp := env.now
    landingPage := env.pathAndSearch }

/-- Embedding of `captureAttributionParams` (params.ts lines 41-74).
Returns the boolean result together with the updated stored state. -/
def captureAttributionParams (env : PageEnv) (st : AttrState) : Bool × AttrState :=
  let urlParams := getParamsFromUrl env.query
  let referrer := getExternalReferrer env
  if urlParams = [] ∧ referrer = none then
    (false, st)
  else
    let newParams := snapshotOf env
    let st1 := if st.firstTouch = none then { st with firstTouch := some newParams } else st
    let st2 := if urlParams ≠ [] then { st1 with lastTouch := some newParams } else st1
    (true, st2)

/-- A sequence of `captureAttributionParams` calls, threading the stored
state. -/
def runCaptures (envs : List PageEnv) (st : AttrState) : AttrState :=
  envs.foldl (fun s env => (captureAttributionParams env s).2) st

/-- A call has capturable data when tracked URL parameters or an external
referrer are present (the spec wording for claim C3). -/
def capturable (env : PageEnv) : Prop :=
  getParamsFromUrl env.query ≠ [] ∨ getExternalReferrer env ≠ none

instance (env : PageEnv) : Decidable (capturable env) := by
  unfold capturable; infer_instance

/-- Spec-side definition for claim C3: the snapshot built by the first
call in the sequence that had capturable data. -/
def firstCapturableSnapshot : List PageEnv → Option AttributionParams
  | [] => none
  | e :: es => if capturable e then some (snapshotOf e) else firstCapturableSnapshot es

/-- The gclid field of a stored snapshot, with JavaScript truthiness
(`last?.gclid` guards in params.ts lines 91-102). -/
def snapshotGclid (a : AttributionParams) : Option String :=
  truthyGet a.urlParams "gclid"

/-- Embedding of `getGclid` (params.ts lines 91-102): URL override, then
LastTouch, then FirstTouch. -/
def getGclid (page : PageEnv) (attr : AttrState) : Option String :=
  match truthyGet page.query "gclid" with
  | some v => some v
  | none =>
    match attr.lastTouch.bind snapshotGclid with
    | some g => some g
    | none => attr.firstTouch.bind snapshotGclid

/-! ## Zaraz sink (client/zaraz.ts) -/

/-- JavaScript `a || b` for an optional string: absent or empty falls
back to the default. -/
def jsOrString (v : Option String) (d : String) : String :=
  match v with
  | some s => if s = "" then d else s
  | none => d

/-- JavaScript `a || b` for an optional number: absent or zero falls back
to the default. -/
def jsOrNum (v : Option ℚ) (d : ℚ) : ℚ :=
  match v with
  | some x => if x = 0 then d else x
  | none => d

/-- Embedding of the shared `normalizePhone` helper (zaraz.ts lines
416-420): keep the digits, preserving a leading plus sign. -/
def normalizePhone (phone : String) : String :=
  let digits := String.mk (phone.data.filter Char.isDigit)
  if phone.startsWith "+" then "+" ++ digits else digits

/-- Email normalization used throughout: trim then lower-case. -/
def normalizeEmail (email : String) : String :=
  email.trim.toLower

/-- An invocation of `window.zaraz.track('Lead', ...)` with the payload
built by `trackMetaLead`. -/
structure ZarazLeadCall where
  em : String
  ph : Option String
  value : ℚ
  currency : String
  event_id : Option String
deriving Repr, DecidableEq

/-- The `MetaLeadParams` argument of `trackMetaLead`. -/
structure MetaLeadParams where
  email : String
  phone : Option String
  value : Option ℚ
  currency : Option String
  eventId : Option String
deriving Repr, DecidableEq

/-- Embedding of `trackMetaLead` (zaraz.ts lines 430-450).
`zarazAvailable` models `isZarazAvailable()` and `siteCurrency` models
`getSiteCurrency()`.  Returns the boolean result together with the list
of Zaraz Lead calls performed (empty when Zaraz is unavailable). -/
def trackMetaLead (zarazAvailable : Bool) (siteCurrency : String)
    (params : MetaLeadParams) : Bool × List ZarazLeadCall :=
  if !zarazAvailable then
    (false, [])
  else
    (true,
      [{ em := normalizeEmail params.email
         ph := params.phone.map normalizePhone
         value := jsOrNum params.value 0
         currency := jsOrString params.currency siteCurrency
         event_id := params.eventId }])

/-! ## trackConversion (client/index.ts) -/

/-- The `ConversionType` union of types.ts. -/
inductive ConversionType where
  | quote_request
  | callback_request
  | contact_form
deriving Repr, DecidableEq

/-- The dataLayer event name pushed for each conversion type
(`EVENT_NAMES` in constants.ts, dispatched by the `switch` in
`trackConversion`). -/
def conversionEventName : ConversionType → String
  | .quote_request => "quote_request"
  | .callback_request => "callback_request"
  | .contact_form => "contact_form"

/-- The `TrackConversionParams` argument of `trackConversion`. -/
structure TrackConversionParams where
  email : String
  phone : Option String
  value : Option ℚ
  currency : Option String
deriving Repr, DecidableEq

/-- The conversion payload pushed onto the dataLayer by
`pushConversionEvent` (dataLayer.ts lines 287-298).  The constant
envelope fields added by `pushEvent` (tracking_version, session id,
page url, device) and the attribution spread are not modelled: the
claims concern only whether, and with what conversion payload, the push
occurs. -/
structure ConversionPush where
  event : String
  lead_id : String
  user_email : String
  user_phone : Option String
  value : ℚ
  currency : String
deriving Repr, DecidableEq

/-- Embedding of `pushConversionEvent` (dataLayer.ts lines 287-298). -/
def pushConversionEvent (siteCurrency : String) (eventName : String) (leadId : String)
    (p : TrackConversionParams) : ConversionPush :=
  { event := eventName
    lead_id := leadId
    user_email := normalizeEmail p.email
    user_phone := p.phone.map normalizePhone
    value := jsOrNum p.value 0
    currency := jsOrString p.currency siteCurrency }

/-- The `TrackConversionResult` record of types.ts. -/
structure TrackConversionResult where
  success : Bool
  leadId : String
  gclid : Option String
  consentBlocked : Bool
deriving Repr, DecidableEq

/-- Environment read by `trackConversion`: consent inputs, Zaraz
availability, the configured site currency, and the page/attribution
state consulted by `getGclid`. -/
structure TrackingEnv where
  consent : ConsentEnv
  zarazAvailable : Bool
  siteCurrency : String
  page : PageEnv
  attr : AttrState
deriving Repr, DecidableEq

/-- Everything `trackConversion` produces: its return value, the
dataLayer pushes and the Zaraz Lead calls it performed. -/
structure TrackConversionOutcome where
  result : TrackConversionResult
  dataLayerPushes : List ConversionPush
  zarazLeadCalls : List ZarazLeadCall
deriving Repr, DecidableEq

/-- Embedding of `trackConversion` (index.ts lines 244-287).
`freshLeadId` is the value `generateLeadId()` produces on this call. -/
def trackConversion (env : TrackingEnv) (ty : ConversionType)
    (params : TrackConversionParams) (freshLeadId : String) : TrackConversionOutcome :=
  let leadId := freshLeadId
  let gclid := getGclid env.page env.attr
  let hasConsent := hasMarketingConsent env.consent
  let push := pushConversionEvent env.siteCurrency (conversionEventName ty) leadId params
  let zaraz := trackMetaLead env.zarazAvailable env.siteCurrency
    { email := params.email, phone := params.phone, value := params.value
      currency := params.currency, eventId := some leadId }
  { result := { success := true, leadId := leadId, gclid := gclid, consentBlocked := !hasConsent }
    dataLayerPushes := [push]
    zarazLeadCalls := zaraz.2 }

/-! ## Offline delivery queue (client/offlineQueue.ts) -/

/-- The queued request record persisted in IndexedDB. -/
structure QueuedRequest where
  id : String
  url : String
  method : String
  body : Option String
  headers : Option (List (String × String))
  timestamp : Int
  retries : Nat
deriving Repr, DecidableEq

/-- `MAX_RETRIES` (offlineQueue.ts line 12). -/
def MAX_RETRIES : Nat := 5

/-- `RETRY_DELAYS` (offlineQueue.ts line 13), in milliseconds. -/
def RETRY_DELAYS : List Nat := [1000, 2000, 5000, 10000, 30000]

/-- The backoff delay scheduled after the attempt for a request that
already had `r` retries: `RETRY_DELAYS[r] || RETRY_DELAYS[length-1]`
(offlineQueue.ts line 246); an out-of-range index yields `undefined`,
which falls back to the last table entry, 30000. -/
def retryDelay (r : Nat) : Nat :=
  RETRY_DELAYS.getD r 30000

/-- Outcome of one `fetch` of a queued request: a response with an HTTP
status, or a thrown network error. -/
inductive FetchOutcome where
  | response (status : Nat)
  | netError
deriving Repr, DecidableEq

/-- `response.ok`: status in the range 200-299. -/
def respOk (status : Nat) : Bool :=
  200 ≤ status && status < 300

/-- What `processQueue` does to one queued request after its delivery
attempt: remove it from the store, or write it back with a bumped retry
count and schedule another pass after `delayMs`. -/
inductive QueueAction where
  | removed
  | retryScheduled (updated : QueuedRequest) (delayMs : Nat)
deriving Repr, DecidableEq

/-- Embedding of `updateRetryCount` (offlineQueue.ts lines 230-254):
at or above the retry cap the request is removed; otherwise it is stored
with `retries + 1` and a retry is scheduled after the backoff delay. -/
def updateRetryCount (req : QueuedRequest) : QueueAction :=
  if req.retries ≥ MAX_RETRIES then
    .removed
  else
    .retryScheduled { req with retries := req.retries + 1 } (retryDelay req.retries)

/-- The per-request body of the `processQueue` loop (offlineQueue.ts
lines 135-157): success removes, a 5xx response or a network error goes
through `updateRetryCount`, any other non-ok response removes. -/
def processQueueStep (req : QueuedRequest) (outcome : FetchOutcome) : QueueAction :=
  match outcome with
  | .response status =>
    if respOk status then .removed
    else if status ≥ 500 then updateRetryCount req
    else .removed
  | .netError => updateRetryCount req

/-- Embedding of `processQueue` (offlineQueue.ts lines 127-162) over the
pending requests, with the network modelled as a function from request
to fetch outcome: each pending request is attempted once and classified
by `processQueueStep`. -/
def processQueue (reqs : List QueuedRequest) (fetchResult : QueuedRequest → FetchOutcome) :
    List (QueuedRequest × QueueAction) :=
  reqs.map fun r => (r, processQueueStep r (fetchResult r))

/-! ## Cross-domain propagator (client/crossDomain.ts) -/

/-- The `CrossDomainData` payload carried in the `_lg_xd` URL
parameter. -/
structure CrossDomainData where
  sessionId : String
  firstTouch : Option AttributionParams
  lastTouch : Option AttributionParams
  timestamp : Int
deriving Repr, DecidableEq

/-- The 1-hour maximum payload age (crossDomain.ts line 114), in
milliseconds. -/
def maxCrossDomainAgeMs : Int := 60 * 60 * 1000

/-- Representation of an encoded cross-domain string.  The JavaScript
composition `btoa (encodeURIComponent (JSON.stringify data))` is
injective and `JSON.parse (decodeURIComponent (atob s))` is its left
inverse on its image, so an encoded payload is represented by the
`CrossDomainData` it parses back to; `none` stands for a string on which
the decode chain throws (corrupt or foreign data). -/
def EncodedPayload := Option CrossDomainData
deriving Repr, DecidableEq

/-- Embedding of `getCrossDomainData` (crossDomain.ts lines 28-35): the
current (freshly extended or created) session id, both attribution
slots, and `Date.now()`. -/
def getCrossDomainData (stored : Option SessionData) (attr : AttrState) (now : Int)
    (timeoutMs : Int) (freshId : String) : CrossDomainData :=
  { sessionId := (getOrCreateSessionId stored now timeoutMs freshId).1
    firstTouch := attr.firstTouch
    lastTouch := attr.lastTouch
    timestamp := now }

/-- Embedding of `encodeCrossDomainData` (crossDomain.ts lines 40-48),
with the serialized string represented by its parse result. -/
def encodeCrossDomainData (stored : Option SessionData) (attr : AttrState) (now : Int)
    (timeoutMs : Int) (freshId : String) : EncodedPayload :=
  some (getCrossDomainData stored attr now timeoutMs freshId)

/-- Embedding of `decodeCrossDomainData` (crossDomain.ts lines 103-124):
undecodable input, a payload with falsy `sessionId` or `timestamp`, and a
payload older than one hour all decode to null. -/
def decodeCrossDomainData (encoded : EncodedPayload) (now : Int) : Option CrossDomainData :=
  match encoded with
  | none => none
  | some d =>
    if d.sessionId = "" ∨ d.timestamp = 0 then none
    else if now - d.timestamp > maxCrossDomainAgeMs then none
    else some d

/-- The local storage touched by `applyCrossDomainData`: the session
record and the two attribution slots. -/
structure LocalStore where
  session : Option SessionData
  attr : AttrState
deriving Repr, DecidableEq

/-- Embedding of `applyCrossDomainData` (crossDomain.ts lines 129-179).
`param` is the `_lg_xd` query parameter (`none` when absent, otherwise
the encoded payload), `page` is the receiving page (whose `now` plays
`Date.now()`).  On a valid payload the incoming session id is stored
with a fresh `lastActivity`, FirstTouch is filled only when locally
absent, LastTouch is overwritten whenever the payload carries one, and
local attribution capture re-runs on the current page.  The URL cleanup
(history.replaceState) has no modelled state. -/
def applyCrossDomainData (param : Option EncodedPayload) (store : LocalStore)
    (page : PageEnv) : Bool × LocalStore :=
  match param with
  | none => (false, store)
  | some enc =>
    match decodeCrossDomainData enc page.now with
    | none => (false, store)
    | some d =>
      let s1 : LocalStore :=
        { store with session := some { id := d.sessionId, lastActivity := page.now } }
      let s2 : LocalStore :=
        match d.firstTouch with
        | some ft =>
          if s1.attr.firstTouch = none then
            { s1 with attr := { s1.attr with firstTouch := some ft } }
          else s1
        | none => s1
      let s3 : LocalStore :=
        match d.lastTouch with
        | some lt => { s2 with attr := { s2.attr with lastTouch := some lt } }
        | none => s2
      (true, { s3 with attr := (captureAttributionParams page s3.attr).2 })

/-! ## Engagement and segment engine (remarketing module) -/

/-- The cumulative `EngagementSignals` record.  The numeric counters are
JavaScript numbers, modelled as exact rationals (division occurs in the
engagement score). -/
structure EngagementSignals where
  pageViews : ℚ
  sessionCount : ℚ
  calculatorStarted : Bool
  calculatorCompleted : Bool
  pricingViewed : Bool
  phoneClicked : Bool
  timeOnSite : ℚ
  scrollDepth : ℚ
  lastVisit : Int
deriving Repr, DecidableEq

/-- The `AudienceSegment` union. -/
inductive AudienceSegment where
  | high_intent
  | calculator_abandon
  | pricing_viewer
  | return_visitor
  | engaged
  | cold
deriving Repr, DecidableEq

/-- Embedding of `calculateSegment` (remarketing module lines 143-170):
the fixed-priority decision table, evaluated top to bottom. -/
def calculateSegment (s : EngagementSignals) : AudienceSegment :=
  if s.calculatorCompleted || (s.pricingViewed && s.phoneClicked) then .high_intent
  else if s.calculatorStarted && !s.calculatorCompleted then .calculator_abandon
  else if s.pricingViewed then .pricing_viewer
  else if 1 < s.sessionCount then .return_visitor
  else if 3 ≤ s.pageViews ∨ 50 ≤ s.scrollDepth ∨ 60 ≤ s.timeOnSite then .engaged
  else .cold

/-- The default signals `getEngagementSignals` falls back to when
nothing (or corrupt data) is stored. -/
def defaultSignals (now : Int) : EngagementSignals :=
  { pageViews := 0, sessionCount := 0, calculatorStarted := false
    calculatorCompleted := false, pricingViewed := false, phoneClicked := false
    timeOnSite := 0, scrollDepth := 0, lastVisit := now }

/-- Embedding of `getEngagementSignals`: the stored record, or the
defaults when absent. -/
def getEngagementSignals (stored : Option EngagementSignals) (now : Int) : EngagementSignals :=
  stored.getD (defaultSignals now)

/-- Embedding of `getAudienceSegment` (remarketing module lines
175-177). -/
def getAudienceSegment (stored : Option EngagementSignals) (now : Int) : AudienceSegment :=
  calculateSegment (getEngagementSignals stored now)

/-- JavaScript `Math.round`: nearest integer, ties toward positive
infinity. -/
def jsRound (q : ℚ) : ℤ :=
  ⌊q + 1 / 2⌋

/-- The weighted sum accumulated by `calculateEngagementScore` before
rounding and capping (remarketing module lines 212-221). -/
def engagementWeightedSum (s : EngagementSignals) : ℚ :=
  min (s.pageViews * 5) 25
    + min (s.sessionCount * 10) 30
    + (if s.calculatorStarted then 15 else 0)
    + (if s.calculatorCompleted then 20 else 0)
    + (if s.pricingViewed then 10 else 0)
    + (if s.phoneClicked then 10 else 0)
    + min (s.scrollDepth / 2) 15
    + min (s.timeOnSite / 10) 15

/-- Embedding of `calculateEngagementScore` (remarketing module lines
211-224): `Math.min(Math.round(score), 100)`. -/
def calculateEngagementScore (s : EngagementSignals) : ℤ :=
  min (jsRound (engagementWeightedSum s)) 100

/-- Spec-side definition for claim C8, following the claim wording: the
weighted sum itself, capped at 100, with no rounding step. -/
def claimedEngagementScore (s : EngagementSignals) : ℚ :=
  min (engagementWeightedSum s) 100

/-! ## Plugin and notification bus (plugins module) -/

/-- Result of running one plugin hook: a normal return or a thrown
exception carrying a message. -/
inductive HookResult where
  | ok
  | threw (msg : String)
deriving Repr, DecidableEq

/-- A registered `TrackingPlugin`.  Only the hooks the claims quantify
over are carried; each hook is a total function into `HookResult`, which
models a JavaScript function that either returns or throws. -/
structure TrackingPlugin where
  name : String
  onPageView : Option (String → HookResult)
  onEvent : Option (String × List (String × String) → HookResult)
  onConversion : Option (ConversionType × List (String × String) → HookResult)
  onError : Option (String × String → HookResult)

/-- The shared fan-out shape of the notify functions (plugins module):
`plugins.forEach(p => if (p.hook) try p.hook(args) catch log)`.  Every
registered plugin whose hook is present is invoked exactly once, in
registration order; a thrown exception is caught on the spot (recorded
as the hook outcome) and the loop continues, so the function always
returns normally with the full invocation record. -/
def notifyHook {α : Type} (hookOf : TrackingPlugin → Option (α → HookResult))
    (plugins : List TrackingPlugin) (a : α) : List (String × HookResult) :=
  plugins.filterMap fun p => (hookOf p).map fun h => (p.name, h a)

/-- Embedding of `notifyEvent` (plugins module lines 153-163). -/
def notifyEvent (plugins : List TrackingPlugin) (eventName : String)
    (params : List (String × String)) : List (String × HookResult) :=
  notifyHook (fun p => p.onEvent) plugins (eventName, params)

/-- Embedding of `notifyPageView` (plugins module lines 141-151). -/
def notifyPageView (plugins : List TrackingPlugin) (url : String) :
    List (String × HookResult) :=
  notifyHook (fun p => p.onPageView) plugins url

/-- Embedding of `notifyConversion` (plugins module lines 165-178). -/
def notifyConversion (plugins : List TrackingPlugin) (ty : ConversionType)
    (params : List (String × String)) : List (String × HookResult) :=
  notifyHook (fun p => p.onConversion) plugins (ty, params)

/-- Embedding of `notifyError` (plugins module lines 204-215): the same
per-plugin fan-out; an exception thrown by an `onError` handler is
caught in the loop body (console.error) and, in particular, `notifyError`
is not re-entered. -/
def notifyError (plugins : List TrackingPlugin) (errMsg : String) (context : String) :
    List (String × HookResult) :=
  notifyHook (fun p => p.onError) plugins (errMsg, context)

/-! ## Concrete inputs used to evaluate the embedded code -/

/-- A page with no tracked query parameters and no referrer. -/
def pageBlank : PageEnv :=
  { query := [], referrerHost := none, ownHost := "trapezlemezes.hu"
    pathAndSearch := "/", now := 1700000000000 }

/-- A landing page carrying a utm_source parameter. -/
def pageWithUtm : PageEnv :=
  { query := [("utm_source", "google")], referrerHost := none
    ownHost := "trapezlemezes.hu", pathAndSearch := "/?utm_source=google", now := 1 }

/-- A later page view with only an external referrer. -/
def pageRefOnly : PageEnv :=
  { query := [], referrerHost := some "ads.example.com"
    ownHost := "trapezlemezes.hu", pathAndSearch := "/arak", now := 2 }

/-- A tracking environment in which the CookieYes API is absent in
production, so marketing consent reads false, while Zaraz is
available. -/
def envNoConsentZaraz : TrackingEnv :=
  { consent := { windowPresent := true, devMode := false, cky := none }
    zarazAvailable := true
    siteCurrency := "HUF"
    page := pageBlank
    attr := { firstTouch := none, lastTouch := none } }

/-- A conversion submission used as concrete input. -/
def conversionParamsEx : TrackConversionParams :=
  { email := "vevo@example.hu", phone := none, value := none, currency := none }

/-- A queued request that has already been retried once. -/
def reqEx : QueuedRequest :=
  { id := "req_1", url := "https://trapezlemezes.hu/api/quote", method := "POST"
    body := none, headers := none, timestamp := 1700000000000, retries := 1 }

/-- A local store holding a session whose last activity was 1 second
ago, hence active under the default 30-minute timeout. -/
def localStoreActive : LocalStore :=
  { session := some { id := "sess_local", lastActivity := 999000 }
    attr := { firstTouch := none, lastTouch := none } }

/-- A fresh incoming cross-domain payload carrying a different session
id and no attribution. -/
def incomingPayload : CrossDomainData :=
  { sessionId := "sess_remote", firstTouch := none, lastTouch := none
    timestamp := 1000000 }

/-- The receiving page of a cross-domain navigation, with no tracked
parameters of its own. -/
def receivingPage : PageEnv :=
  { query := [], referrerHost := none, ownHost := "trapezlemezes.hu"
    pathAndSearch := "/", now := 1000000 }

/-- A stored attribution snapshot. -/
def attrSnapEx : AttributionParams :=
  { urlParams := [("gclid", "abc123")], referrer := none, timestamp := 5
    landingPage := "/landing" }

/-- A second, different attribution snapshot carried by a payload. -/
def attrSnapEx2 : AttributionParams :=
  { urlParams := [("utm_source", "newsletter")], referrer := none, timestamp := 7
    landingPage := "/akcio" }

/-- A local store that already has a first-touch snapshot. -/
def storeWithFirst : LocalStore :=
  { session := none
    attr := { firstTouch := some attrSnapEx, lastTouch := none } }

/-- An incoming payload carrying both touch snapshots. -/
def payloadWithTouches : CrossDomainData :=
  { sessionId := "sess_r", firstTouch := some attrSnapEx2
    lastTouch := some attrSnapEx2, timestamp := 1000000 }

/-- The signals of the segment-priority example in the spec. -/
def exampleHighIntent : EngagementSignals :=
  { pageViews := 0, sessionCount := 5, calculatorStarted := false
    calculatorCompleted := true, pricingViewed := true, phoneClicked := true
    timeOnSite := 0, scrollDepth := 0, lastVisit := 0 }

/-- Signals with an odd scroll depth, making the engagement weighted sum
fractional. -/
def oddScrollSignals : EngagementSignals :=
  { pageViews := 0, sessionCount := 0, calculatorStarted := false
    calculatorCompleted := false, pricingViewed := false, phoneClicked := false
    timeOnSite := 0, scrollDepth := 1, lastVisit := 0 }

/-- A plugin whose onEvent hook always throws. -/
def pluginThrower : TrackingPlugin :=
  { name := "thrower", onPageView := none
    onEvent := some fun _ => HookResult.threw "boom"
    onConversion := none, onError := none }

/-- A plugin whose onEvent hook returns normally. -/
def pluginLogger : TrackingPlugin :=
  { name := "logger", onPageView := none
    onEvent := some fun _ => HookResult.ok
    onConversion := none, onError := none }

end Tracking

open Tracking

/-- C2: with session timeout T, a session id s obtained at t0 (with
lastActivity persisted as t0) is returned again by a call at
t0 + T - 1, which bumps lastActivity to the call time; a call at
t0 + T + 1 with no intervening reads takes the new-session branch and
returns the freshly generated id, which differs from s whenever the
generator produces a different string. -/
theorem getOrCreateSessionId_timeout_boundary (s : String) (t0 T : Int)
    (freshA freshB : String) :
    (getOrCreateSessionId (some { id := s, lastActivity := t0 }) (t0 + T - 1) T freshA).1 = s
    ∧ (getOrCreateSessionId (some { id := s, lastActivity := t0 }) (t0 + T - 1) T freshA).2
        = { id := s, lastActivity := t0 + T - 1 }
    ∧ (getOrCreateSessionId (some { id := s, lastActivity := t0 }) (t0 + T + 1) T freshB).1
        = freshB
    ∧ (freshB ≠ s →
        (getOrCreateSessionId (some { id := s, lastActivity := t0 }) (t0 + T + 1) T freshB).1
          ≠ s) := by
  have h1 : t0 + T - 1 - t0 < T := by omega
  have h2 : ¬(t0 + T + 1 - t0 < T) := by omega
  refine ⟨?_, ?_, ?_, fun hne => ?_⟩ <;>
    simp [getOrCreateSessionId, h1, h2]
  exact hne

/-- Witness for C2 at a concrete session, fresh id and the default
30-minute timeout. -/
theorem getOrCreateSessionId_timeout_boundary_witness :
    (getOrCreateSessionId (some { id := "sess_a", lastActivity := 1000 })
        (1000 + 1800000 - 1) 1800000 "sess_b").1 = "sess_a"
    ∧ (getOrCreateSessionId (some { id := "sess_a", lastActivity := 1000 })
        (1000 + 1800000 + 1) 1800000 "sess_b").1 ≠ "sess_a" := by
  have h := getOrCreateSessionId_timeout_boundary "sess_a" 1000 1800000 "sess_b" "sess_b"
  exact ⟨h.1, h.2.2.2 (by decide)⟩

/-- C10: for every input, trackConversion reports success = true,
consentBlocked equal to the negation of the marketing consent read at
call time, the freshly generated lead id, and the gclid resolved from
URL and stored attribution; the dataLayer conversion push is performed
unconditionally, in particular also when marketing consent is denied. -/
theorem trackConversion_result_shape (env : TrackingEnv) (ty : ConversionType)
    (p : TrackConversionParams) (lid : String) :
    (trackConversion env ty p lid).result.success = true
    ∧ (trackConversion env ty p lid).result.consentBlocked = !hasMarketingConsent env.consent
    ∧ (trackConversion env ty p lid).result.leadId = lid
    ∧ (trackConversion env ty p lid).result.gclid = getGclid env.page env.attr
    ∧ (trackConversion env ty p lid).dataLayerPushes
        = [pushConversionEvent env.siteCurrency (conversionEventName ty) lid p] :=
  ⟨rfl, rfl, rfl, rfl, rfl⟩

/-- C1, counterexample: in an environment where marketing consent reads
false (CookieYes absent in production) and Zaraz is available,
trackConversion still performs a Zaraz Lead call, so the pixel/CAPI send
is not gated on current marketing consent. -/
theorem trackConversion_zaraz_fires_without_consent :
    hasMarketingConsent envNoConsentZaraz.consent = false
    ∧ (trackConversion envNoConsentZaraz ConversionType.quote_request
        conversionParamsEx "LD-2026-1").zarazLeadCalls ≠ [] := by
  decide

/-- C1, amended: the Zaraz Lead call performed by trackConversion is
independent of the consent state (the same calls are made for any two
consent environments); the call is exactly the trackMetaLead dispatch,
and it is non-empty whenever Zaraz is available, consent or not.
Consent only determines the consentBlocked flag of the result. -/
theorem trackConversion_zaraz_unconditional (env : TrackingEnv) (c1 c2 : ConsentEnv)
    (ty : ConversionType) (p : TrackConversionParams) (lid : String) :
    (trackConversion { env with consent := c1 } ty p lid).zarazLeadCalls
      = (trackConversion { env with consent := c2 } ty p lid).zarazLeadCalls
    ∧ (trackConversion env ty p lid).zarazLeadCalls
      = (trackMetaLead env.zarazAvailable env.siteCurrency
          { email := p.email, phone := p.phone, value := p.value
            currency := p.currency, eventId := some lid }).2
    ∧ (env.zarazAvailable = true →
        (trackConversion env ty p lid).zarazLeadCalls ≠ []) := by
  refine ⟨rfl, rfl, fun h => ?_⟩
  simp [trackConversion, trackMetaLead, h]

/-- Witness for C1 (amended) at the concrete no-consent environment. -/
theorem trackConversion_zaraz_unconditional_witness :
    (trackConversion envNoConsentZaraz ConversionType.contact_form
        conversionParamsEx "LD-2026-2").zarazLeadCalls ≠ [] :=
  (trackConversion_zaraz_unconditional envNoConsentZaraz envNoConsentZaraz.consent
    envNoConsentZaraz.consent ConversionType.contact_form conversionParamsEx
    "LD-2026-2").2.2 rfl

/-- C4: classification of a delivery attempt in the offline queue. An ok
response removes the request; a 5xx response or a network error, below
the retry cap, writes the request back with retries + 1 and schedules
the next pass after the backoff delay 1s, 2s, 5s, 10s, 30s (clamped to
30s beyond the table); a non-ok response below 500 removes the request
immediately; a request whose retry count has reached the cap of 5 is
removed rather than retried; and processQueue applies exactly this
classification to every pending request. -/
theorem processQueue_retry_policy (req : QueuedRequest) (s : Nat) :
    (respOk s = true → processQueueStep req (FetchOutcome.response s) = QueueAction.removed)
    ∧ (500 ≤ s → req.retries < 5 →
        processQueueStep req (FetchOutcome.response s)
          = QueueAction.retryScheduled { req with retries := req.retries + 1 }
              (retryDelay req.retries))
    ∧ (req.retries < 5 →
        processQueueStep req FetchOutcome.netError
          = QueueAction.retryScheduled { req with retries := req.retries + 1 }
              (retryDelay req.retries))
    ∧ (respOk s = false → s < 500 →
        processQueueStep req (FetchOutcome.response s) = QueueAction.removed)
    ∧ (5 ≤ req.retries → processQueueStep req FetchOutcome.netError = QueueAction.removed)
    ∧ (5 ≤ req.retries → 500 ≤ s →
        processQueueStep req (FetchOutcome.response s) = QueueAction.removed)
    ∧ retryDelay 0 = 1000 ∧ retryDelay 1 = 2000 ∧ retryDelay 2 = 5000
    ∧ retryDelay 3 = 10000 ∧ retryDelay 4 = 30000
    ∧ (∀ k, 5 ≤ k → retryDelay k = 30000)
    ∧ (∀ reqs fetchResult, processQueue reqs fetchResult
        = reqs.map fun r => (r, processQueueStep r (fetchResult r))) := by
  refine ⟨fun h => ?_, fun h5 hr => ?_, fun hr => ?_, fun h hlt => ?_,
    fun hc => ?_, fun hc h5 => ?_, rfl, rfl, rfl, rfl, rfl, fun k hk => ?_,
    fun reqs fetchResult => rfl⟩
  · simp [processQueueStep, h]
  · have hok : respOk s = false := by simp [respOk]; omega
    simp [processQueueStep, hok, updateRetryCount, MAX_RETRIES, h5, Nat.not_le.mpr hr]
  · simp [processQueueStep, updateRetryCount, MAX_RETRIES, Nat.not_le.mpr hr]
  · simp [processQueueStep, h, Nat.not_le.mpr hlt]
  · simp [processQueueStep, updateRetryCount, MAX_RETRIES, hc]
  · have hok : respOk s = false := by simp [respOk]; omega
    simp [processQueueStep, hok, updateRetryCount, MAX_RETRIES, h5, hc]
  · unfold retryDelay RETRY_DELAYS
    rcases k with _ | _ | _ | _ | _ | k <;> simp_all

/-- Witness for C4: the request with one prior retry is re-enqueued with
retries = 2 and a 2-second delay on a 503, and removed on a 404. -/
theorem processQueue_retry_policy_witness :
    processQueueStep reqEx (FetchOutcome.response 503)
      = QueueAction.retryScheduled { reqEx with retries := 2 } 2000
    ∧ processQueueStep reqEx (FetchOutcome.response 404) = QueueAction.removed := by
  constructor
  · rw [(processQueue_retry_policy reqEx 503).2.1 (by decide) (by decide)]
    decide
  · exact (processQueue_retry_policy reqEx 404).2.2.2.1 (by decide) (by decide)

/-- C5: calculateSegment implements the fixed-priority decision table
evaluated top to bottom with first match winning: (1) calculator
completed or pricing viewed with a phone click gives high_intent,
(2) calculator started but not completed gives calculator_abandon,
(3) pricing viewed gives pricing_viewer, (4) more than one session gives
return_visitor, (5) at least 3 page views, 50 percent scroll depth or 60
seconds on site gives engaged, (6) otherwise cold; in particular the
spec example signals resolve to high_intent. -/
theorem calculateSegment_priority_table (s : EngagementSignals) :
    calculateSegment exampleHighIntent = AudienceSegment.high_intent
    ∧ (calculateSegment s = AudienceSegment.high_intent ↔
        (s.calculatorCompleted = true ∨ (s.pricingViewed = true ∧ s.phoneClicked = true)))
    ∧ (calculateSegment s = AudienceSegment.calculator_abandon ↔
        (¬(s.calculatorCompleted = true ∨ (s.pricingViewed = true ∧ s.phoneClicked = true))
          ∧ s.calculatorStarted = true ∧ s.calculatorCompleted = false))
    ∧ (calculateSegment s = AudienceSegment.pricing_viewer ↔
        (¬(s.calculatorCompleted = true ∨ (s.pricingViewed = true ∧ s.phoneClicked = true))
          ∧ ¬(s.calculatorStarted = true ∧ s.calculatorCompleted = false)
          ∧ s.pricingViewed = true))
    ∧ (calculateSegment s = AudienceSegment.return_visitor ↔
        (¬(s.calculatorCompleted = true ∨ (s.pricingViewed = true ∧ s.phoneClicked = true))
          ∧ ¬(s.calculatorStarted = true ∧ s.calculatorCompleted = false)
          ∧ ¬s.pricingViewed = true
          ∧ 1 < s.sessionCount))
    ∧ (calculateSegment s = AudienceSegment.engaged ↔
        (¬(s.calculatorCompleted = true ∨ (s.pricingViewed = true ∧ s.phoneClicked = true))
          ∧ ¬(s.calculatorStarted = true ∧ s.calculatorCompleted = false)
          ∧ ¬s.pricingViewed = true
          ∧ ¬1 < s.sessionCount
          ∧ (3 ≤ s.pageViews ∨ 50 ≤ s.scrollDepth ∨ 60 ≤ s.timeOnSite)))
    ∧ (calculateSegment s = AudienceSegment.cold ↔
        (¬(s.calculatorCompleted = true ∨ (s.pricingViewed = true ∧ s.phoneClicked = true))
          ∧ ¬(s.calculatorStarted = true ∧ s.calculatorCompleted = false)
          ∧ ¬s.pricingViewed = true
          ∧ ¬1 < s.sessionCount
          ∧ ¬(3 ≤ s.pageViews ∨ 50 ≤ s.scrollDepth ∨ 60 ≤ s.timeOnSite))) := by
  refine ⟨by decide, ?_, ?_, ?_, ?_, ?_, ?_⟩ <;>
  · unfold calculateSegment
    split_ifs with h1 h2 h3 h4 h5 <;> simp_all

/-- Witness for C5: the spec example resolves to high_intent because
rule 1 fires, extracted by applying the table theorem at the example
signals. -/
theorem calculateSegment_priority_table_witness :
    calculateSegment exampleHighIntent = AudienceSegment.high_intent :=
  (calculateSegment_priority_table exampleHighIntent).2.1.mpr (Or.inl rfl)

/-- C8, counterexample: for signals with scrollDepth = 1 and everything
else zero, the claimed weighted-sum formula yields 1/2 while the code
rounds to the nearest integer before capping and returns 1, so the
engagement score does not equal the capped weighted sum. -/
theorem calculateEngagementScore_rounding_counterexample :
    calculateEngagementScore oddScrollSignals = 1
    ∧ claimedEngagementScore oddScrollSignals = 1 / 2
    ∧ ((calculateEngagementScore oddScrollSignals : ℚ)
        ≠ claimedEngagementScore oddScrollSignals) := by
  have hsum : engagementWeightedSum oddScrollSignals = 1 / 2 := by
    simp only [engagementWeightedSum, oddScrollSignals]
    norm_num [min_def]
  have hscore : calculateEngagementScore oddScrollSignals = 1 := by
    unfold calculateEngagementScore
    rw [hsum]
    norm_num [jsRound, min_def]
  have hclaim : claimedEngagementScore oddScrollSignals = 1 / 2 := by
    unfold claimedEngagementScore
    rw [hsum]
    norm_num [min_def]
  refine ⟨hscore, hclaim, ?_⟩
  rw [hscore, hclaim]
  norm_num

/-- C8, amended: the engagement score is the weighted sum rounded to the
nearest integer (JavaScript Math.round, ties up) and then capped at 100;
for nonnegative signal counters it always lies in 0..100. -/
theorem calculateEngagementScore_amended (s : EngagementSignals)
    (h1 : 0 ≤ s.pageViews) (h2 : 0 ≤ s.sessionCount)
    (h3 : 0 ≤ s.scrollDepth) (h4 : 0 ≤ s.timeOnSite) :
    calculateEngagementScore s = min (jsRound (engagementWeightedSum s)) 100
    ∧ 0 ≤ calculateEngagementScore s
    ∧ calculateEngagementScore s ≤ 100 := by
  have hsum : 0 ≤ engagementWeightedSum s := by
    unfold engagementWeightedSum
    have t1 : (0 : ℚ) ≤ min (s.pageViews * 5) 25 := le_min (by positivity) (by norm_num)
    have t2 : (0 : ℚ) ≤ min (s.sessionCount * 10) 30 := le_min (by positivity) (by norm_num)
    have t3 : (0 : ℚ) ≤ if s.calculatorStarted then 15 else 0 := by split_ifs <;> norm_num
    have t4 : (0 : ℚ) ≤ if s.calculatorCompleted then 20 else 0 := by split_ifs <;> norm_num
    have t5 : (0 : ℚ) ≤ if s.pricingViewed then 10 else 0 := by split_ifs <;> norm_num
    have t6 : (0 : ℚ) ≤ if s.phoneClicked then 10 else 0 := by split_ifs <;> norm_num
    have t7 : (0 : ℚ) ≤ min (s.scrollDepth / 2) 15 := le_min (by positivity) (by norm_num)
    have t8 : (0 : ℚ) ≤ min (s.timeOnSite / 10) 15 := le_min (by positivity) (by norm_num)
    linarith
  have hround : 0 ≤ jsRound (engagementWeightedSum s) := by
    unfold jsRound
    exact Int.le_floor.mpr (by push_cast; linarith)
  exact ⟨rfl, le_min hround (by norm_num), min_le_right _ _⟩

/-- Witness for C8 (amended) at the odd-scroll signals. -/
theorem calculateEngagementScore_amended_witness :
    0 ≤ calculateEngagementScore oddScrollSignals
    ∧ calculateEngagementScore oddScrollSignals ≤ 100 := by
  have h := calculateEngagementScore_amended oddScrollSignals (by decide) (by decide)
    (by decide) (by decide)
  exact ⟨h.2.1, h.2.2⟩

/-- Helper: the session id handed out by getOrCreateSessionId is
nonempty whenever the stored id and the freshly generated id are. -/
theorem getOrCreateSessionId_fst_ne_empty (stored : Option SessionData) (now timeoutMs : Int)
    (freshId : String) (hf : freshId ≠ "")
    (hs : ∀ s, stored = some s → s.id ≠ "") :
    (getOrCreateSessionId stored now timeoutMs freshId).1 ≠ "" := by
  cases stored with
  | none => simpa [getOrCreateSessionId] using hf
  | some s =>
    have hid := hs s rfl
    simp only [getOrCreateSessionId]
    split_ifs <;> simp [hid, hf]

/-- C6: decoding an encoded cross-domain payload within the 1-hour
maximum age recovers the original sessionId, firstTouch, lastTouch (and
timestamp) exactly, given nonempty session ids from the session manager
and a nonzero clock; a payload strictly older than 1 hour decodes to
null, as does a payload with missing (falsy) sessionId or timestamp, or
an undecodable string. -/
theorem crossDomain_roundtrip (stored : Option SessionData) (attr : AttrState)
    (now timeoutMs : Int) (freshId : String) (now2 : Int) :
    (freshId ≠ "" → (∀ s, stored = some s → s.id ≠ "") → now ≠ 0 →
      now2 - now ≤ maxCrossDomainAgeMs →
      decodeCrossDomainData (encodeCrossDomainData stored attr now timeoutMs freshId) now2
        = some (getCrossDomainData stored attr now timeoutMs freshId))
    ∧ (now2 - now > maxCrossDomainAgeMs →
        decodeCrossDomainData (encodeCrossDomainData stored attr now timeoutMs freshId) now2
          = none)
    ∧ (∀ d : CrossDomainData, d.sessionId = "" →
        decodeCrossDomainData (some d) now2 = none)
    ∧ (∀ d : CrossDomainData, d.timestamp = 0 →
        decodeCrossDomainData (some d) now2 = none)
    ∧ decodeCrossDomainData (none : EncodedPayload) now2 = none := by
  refine ⟨fun hf hs hnz hage => ?_, fun hold => ?_, fun d hsid => ?_, fun d hts => ?_, rfl⟩
  · have hsid : (getCrossDomainData stored attr now timeoutMs freshId).sessionId ≠ "" :=
      getOrCreateSessionId_fst_ne_empty stored now timeoutMs freshId hf hs
    have hts : (getCrossDomainData stored attr now timeoutMs freshId).timestamp = now := rfl
    simp only [decodeCrossDomainData, encodeCrossDomainData]
    rw [hts]
    split_ifs with h1 h2
    · rcases h1 with h | h
      · exact absurd h hsid
      · exact absurd h hnz
    · exact absurd h2 (by omega)
    · rfl
  · have hts : (getCrossDomainData stored attr now timeoutMs freshId).timestamp = now := rfl
    simp only [decodeCrossDomainData, encodeCrossDomainData]
    rw [hts]
    split_ifs with h1
    · rfl
    · rfl
  · simp [decodeCrossDomainData, hsid]
  · simp [decodeCrossDomainData, hts]

/-- Witness for C6: a fresh payload round-trips exactly one second after
encoding. -/
theorem crossDomain_roundtrip_witness :
    decodeCrossDomainData
        (encodeCrossDomainData none { firstTouch := none, lastTouch := none }
          1700000000000 1800000 "sess_ab") 1700000001000
      = some { sessionId := "sess_ab", firstTouch := none, lastTouch := none
               timestamp := 1700000000000 } := by
  rw [(crossDomain_roundtrip none { firstTouch := none, lastTouch := none }
        1700000000000 1800000 "sess_ab" 1700000001000).1
      (by decide) (fun s hs => by cases hs) (by decide) (by decide)]
  rfl

/-- Helper: a capture call never changes an already-set FirstTouch. -/
theorem captureStep_preserves_firstTouch (env : PageEnv) (st : AttrState)
    (snap : AttributionParams) (h : st.firstTouch = some snap) :
    ((captureAttributionParams env st).2).firstTouch = some snap := by
  simp only [captureAttributionParams]
  split_ifs <;> simp_all

/-- Helper: a capture call that observed no tracked URL parameters
leaves LastTouch unchanged. -/
theorem captureStep_lastTouch_of_no_params (env : PageEnv) (st : AttrState)
    (h : getParamsFromUrl env.query = []) :
    ((captureAttributionParams env st).2).lastTouch = st.lastTouch := by
  simp only [captureAttributionParams, h]
  split_ifs <;> simp_all

/-- Helper: a capturable call on an empty FirstTouch slot stores the
snapshot of that call. -/
theorem captureStep_sets_firstTouch (env : PageEnv) (st : AttrState)
    (hc : capturable env) (h : st.firstTouch = none) :
    ((captureAttributionParams env st).2).firstTouch = some (snapshotOf env) := by
  have hcond : ¬(getParamsFromUrl env.query = [] ∧ getExternalReferrer env = none) := by
    unfold capturable at hc; tauto
  simp only [captureAttributionParams]
  split_ifs <;> simp_all

/-- Helper: a non-capturable call leaves the stored state untouched. -/
theorem captureStep_noop (env : PageEnv) (st : AttrState) (hc : ¬capturable env) :
    (captureAttributionParams env st).2 = st := by
  have h1 : getParamsFromUrl env.query = [] := by unfold capturable at hc; tauto
  have h2 : getExternalReferrer env = none := by unfold capturable at hc; tauto
  simp [captureAttributionParams, h1, h2]

/-- Helper: a whole capture sequence preserves an already-set
FirstTouch. -/
theorem runCaptures_preserves_firstTouch (envs : List PageEnv) :
    ∀ (st : AttrState) (snap : AttributionParams), st.firstTouch = some snap →
      (runCaptures envs st).firstTouch = some snap := by
  induction envs with
  | nil => intro st snap h; exact h
  | cons e es ih =>
    intro st snap h
    exact ih _ snap (captureStep_preserves_firstTouch e st snap h)

/-- Helper: starting from an empty FirstTouch slot, a capture sequence
leaves FirstTouch equal to the snapshot of the first capturable call. -/
theorem runCaptures_firstTouch_from_empty (envs : List PageEnv) :
    ∀ lt0 : Option AttributionParams,
      (runCaptures envs { firstTouch := none, lastTouch := lt0 }).firstTouch
        = firstCapturableSnapshot envs := by
  induction envs with
  | nil => intro lt0; rfl
  | cons e es ih =>
    intro lt0
    have hfold : runCaptures (e :: es) { firstTouch := none, lastTouch := lt0 }
        = runCaptures es (captureAttributionParams e
            { firstTouch := none, lastTouch := lt0 }).2 := rfl
    by_cases hc : capturable e
    · have hstep := captureStep_sets_firstTouch e
        { firstTouch := none, lastTouch := lt0 } hc rfl
      have hrun := runCaptures_preserves_firstTouch es _ _ hstep
      rw [hfold, hrun]
      simp only [firstCapturableSnapshot]
      rw [if_pos hc]
    · have hnoop := captureStep_noop e { firstTouch := none, lastTouch := lt0 } hc
      rw [hfold, hnoop]
      simp only [firstCapturableSnapshot]
      rw [if_neg hc]
      exact ih lt0

/-- C3: over any sequence of captureAttributionParams calls starting
from an empty FirstTouch slot, the stored FirstTouch ends up equal to
the snapshot built by the first call that had capturable data (tracked
URL parameters or an external referrer), and no later call modifies an
already-set FirstTouch; moreover LastTouch is overwritten only by a call
that observed tracked URL parameters — a call with at most an external
referrer leaves LastTouch unchanged. -/
theorem captureAttributionParams_first_touch_write_once (envs : List PageEnv)
    (lt0 : Option AttributionParams) :
    (runCaptures envs { firstTouch := none, lastTouch := lt0 }).firstTouch
      = firstCapturableSnapshot envs
    ∧ (∀ env st snap, st.firstTouch = some snap →
        ((captureAttributionParams env st).2).firstTouch = some snap)
    ∧ (∀ env st, getParamsFromUrl env.query = [] →
        ((captureAttributionParams env st).2).lastTouch = st.lastTouch) :=
  ⟨runCaptures_firstTouch_from_empty envs lt0,
   fun env st snap h => captureStep_preserves_firstTouch env st snap h,
   fun env st h => captureStep_lastTouch_of_no_params env st h⟩

/-- Witness for C3: after a utm landing, a later referrer-only page view
leaves both the stored FirstTouch and LastTouch unchanged. -/
theorem captureAttributionParams_first_touch_write_once_witness :
    ((captureAttributionParams pageRefOnly
        { firstTouch := some (snapshotOf pageWithUtm), lastTouch := none }).2).firstTouch
      = some (snapshotOf pageWithUtm)
    ∧ ((captureAttributionParams pageRefOnly
        { firstTouch := some (snapshotOf pageWithUtm), lastTouch := none }).2).lastTouch
      = none := by
  have h := captureAttributionParams_first_touch_write_once [] none
  exact ⟨h.2.1 pageRefOnly _ _ rfl, h.2.2 pageRefOnly _ (by decide)⟩

/-- C7, counterexample: the receiving page holds a local session whose
last activity was one second ago — active under the default 30-minute
timeout — yet applyCrossDomainData replaces it with the incoming
session id, so an existing unexpired local session is not protected
from replacement. -/
theorem applyCrossDomainData_replaces_active_session :
    getCurrentSessionId localStoreActive.session receivingPage.now 1800000
      = some "sess_local"
    ∧ (applyCrossDomainData (some (some incomingPayload)) localStoreActive
        receivingPage).2.session
      = some { id := "sess_remote", lastActivity := 1000000 }
    ∧ "sess_remote" ≠ "sess_local" := by
  decide

/-- C7, amended: when applyCrossDomainData accepts a valid incoming
payload, it adopts the incoming session id unconditionally — replacing
any local session, active or not — stamps it with the current time,
fills FirstTouch only if locally absent (an existing FirstTouch is never
overwritten), and overwrites LastTouch whenever the payload carries one
(the subsequent re-run of local attribution capture can update LastTouch
again only when the current page itself has tracked URL parameters). -/
theorem applyCrossDomainData_amended (store : LocalStore) (page : PageEnv)
    (enc : EncodedPayload) (d : CrossDomainData)
    (hdec : decodeCrossDomainData enc page.now = some d) :
    (applyCrossDomainData (some enc) store page).1 = true
    ∧ (applyCrossDomainData (some enc) store page).2.session
        = some { id := d.sessionId, lastActivity := page.now }
    ∧ (∀ snap, store.attr.firstTouch = some snap →
        (applyCrossDomainData (some enc) store page).2.attr.firstTouch = some snap)
    ∧ (∀ lt, d.lastTouch = some lt → getParamsFromUrl page.query = [] →
        (applyCrossDomainData (some enc) store page).2.attr.lastTouch = some lt) := by
  simp only [applyCrossDomainData, hdec]
  refine ⟨by trivial, ?_, fun snap hsnap => ?_, fun lt hlt hnp => ?_⟩
  · cases hft : d.firstTouch <;> cases hlt : d.lastTouch <;>
      split_ifs <;> rfl
  · cases hft : d.firstTouch <;> cases hlt : d.lastTouch <;>
      simp_all [captureStep_preserves_firstTouch]
  · cases hft : d.firstTouch <;> rw [hlt] <;>
      split_ifs <;> simp_all [captureStep_lastTouch_of_no_params]

/-- Witness for C7 (amended): a store that already has a first touch
receives a payload carrying both touches on a page without tracked
parameters. -/
theorem applyCrossDomainData_amended_witness :
    (applyCrossDomainData (some (some payloadWithTouches)) storeWithFirst
        receivingPage).2.session
      = some { id := payloadWithTouches.sessionId, lastActivity := receivingPage.now }
    ∧ (applyCrossDomainData (some (some payloadWithTouches)) storeWithFirst
        receivingPage).2.attr.firstTouch = some attrSnapEx
    ∧ (applyCrossDomainData (some (some payloadWithTouches)) storeWithFirst
        receivingPage).2.attr.lastTouch = some attrSnapEx2 := by
  have h := applyCrossDomainData_amended storeWithFirst receivingPage
    (some payloadWithTouches) payloadWithTouches (by decide)
  exact ⟨h.2.1, h.2.2.1 attrSnapEx rfl, h.2.2.2 attrSnapEx2 rfl (by decide)⟩

/-- Helper: the fan-out loop invokes exactly the registered plugins that
carry the hook, in registration order, regardless of what any hook
evaluates to. -/
theorem notifyHook_names {α : Type} (hookOf : TrackingPlugin → Option (α → HookResult))
    (plugins : List TrackingPlugin) (a : α) :
    (notifyHook hookOf plugins a).map Prod.fst
      = (plugins.filter fun p => (hookOf p).isSome).map TrackingPlugin.name := by
  induction plugins with
  | nil => rfl
  | cons p ps ih =>
    cases h : hookOf p <;>
      simp [notifyHook, List.filterMap_cons, List.filter_cons, h] <;>
      simpa [notifyHook] using ih

/-- Helper: a plugin with the hook present contributes its own
invocation record to the fan-out result. -/
theorem notifyHook_mem {α : Type} (hookOf : TrackingPlugin → Option (α → HookResult))
    (plugins : List TrackingPlugin) (a : α) (p : TrackingPlugin)
    (h : α → HookResult) (hp : p ∈ plugins) (hh : hookOf p = some h) :
    (p.name, h a) ∈ notifyHook hookOf plugins a := by
  unfold notifyHook
  exact List.mem_filterMap.mpr ⟨p, hp, by rw [hh]; rfl⟩

/-- C9: for any set of registered plugins, the set of plugins whose
onEvent hook is invoked by notifyEvent is exactly the registered plugins
carrying that hook — independent of any hook's outcome, so one plugin
throwing cannot prevent another plugin from being called — and each such
plugin's record (including a thrown outcome, caught by the per-plugin
try/catch rather than propagated to the caller) appears in the returned
invocation list; the same holds for the notifyPageView, notifyConversion
and notifyError fan-outs, notifyError catching handler exceptions in
its own loop body without re-entering the notify pipeline. -/
theorem plugin_notify_isolation (plugins : List TrackingPlugin) (eventName : String)
    (params : List (String × String)) (url errMsg context : String)
    (ty : ConversionType) :
    ((notifyEvent plugins eventName params).map Prod.fst
        = (plugins.filter fun p => p.onEvent.isSome).map TrackingPlugin.name)
    ∧ (∀ p h, p ∈ plugins → p.onEvent = some h →
        (p.name, h (eventName, params)) ∈ notifyEvent plugins eventName params)
    ∧ ((notifyPageView plugins url).map Prod.fst
        = (plugins.filter fun p => p.onPageView.isSome).map TrackingPlugin.name)
    ∧ ((notifyConversion plugins ty params).map Prod.fst
        = (plugins.filter fun p => p.onConversion.isSome).map TrackingPlugin.name)
    ∧ ((notifyError plugins errMsg context).map Prod.fst
        = (plugins.filter fun p => p.onError.isSome).map TrackingPlugin.name)
    ∧ (∀ p h, p ∈ plugins → p.onError = some h →
        (p.name, h (errMsg, context)) ∈ notifyError plugins errMsg context) :=
  ⟨notifyHook_names _ plugins _,
   fun p h hp hh => notifyHook_mem _ plugins _ p h hp hh,
   notifyHook_names _ plugins _,
   notifyHook_names _ plugins _,
   notifyHook_names _ plugins _,
   fun p h hp hh => notifyHook_mem _ plugins _ p h hp hh⟩

/-- Witness for C9: with a throwing plugin registered first, the second
plugin's onEvent hook is still invoked and the caller receives the full
invocation list with the exception recorded, not propagated. -/
theorem plugin_notify_isolation_witness :
    ("logger", HookResult.ok)
      ∈ notifyEvent [pluginThrower, pluginLogger] "calculator_start" []
    ∧ (notifyEvent [pluginThrower, pluginLogger] "calculator_start" []).map Prod.fst
      = ["thrower", "logger"] := by
  have h := plugin_notify_isolation [pluginThrower, pluginLogger] "calculator_start"
    [] "/" "err" "ctx" ConversionType.quote_request
  constructor
  · have hmem := h.2.1 pluginLogger (fun _ => HookResult.ok)
      (List.Mem.tail _ (List.Mem.head _)) rfl
    simpa [pluginLogger] using hmem
  · rw [h.1]
    rfl
